import Mathlib

/-!
Shallow embedding of the ocean-wave core of the Advanced-OpenGL-Engine
repository (Gerstner ocean in `Ocean.cpp` / `shaders/ocean.vert`, spectral
ocean in `OceanFFT.{hpp,cpp}`), with theorems settling the frozen claims
about it.  C++ `float` arithmetic is modelled by exact real arithmetic on ℝ;
float literals of the source become the corresponding rational constants.
-/

namespace AdvGL

/-- 2D vector, modelling `glm::vec2`. -/
structure Vec2 where
  x : ℝ
  y : ℝ

/-- 3D vector, modelling `glm::vec3`. -/
structure Vec3 where
  x : ℝ
  y : ℝ
  z : ℝ

/-- `glm::dot` on 2D vectors. -/
noncomputable def dot2 (a b : Vec2) : ℝ := a.x * b.x + a.y * b.y

/-- `glm::length` on 2D vectors: `sqrt(dot(v,v))`. -/
noncomputable def length2 (v : Vec2) : ℝ := Real.sqrt (v.x * v.x + v.y * v.y)

/-- `glm::normalize` on 2D vectors: `v / length(v)`. -/
noncomputable def normalize2 (v : Vec2) : Vec2 :=
  ⟨v.x / length2 v, v.y / length2 v⟩

/-- `glm::mix(a, b, t) = a*(1-t) + b*t`, componentwise on 2D vectors. -/
noncomputable def mix2 (a b : Vec2) (t : ℝ) : Vec2 :=
  ⟨a.x * (1 - t) + b.x * t, a.y * (1 - t) + b.y * t⟩

/-- `glm::length` on 3D vectors. -/
noncomputable def length3 (v : Vec3) : ℝ :=
  Real.sqrt (v.x * v.x + v.y * v.y + v.z * v.z)

/-- `glm::normalize` on 3D vectors. -/
noncomputable def normalize3 (v : Vec3) : Vec3 :=
  ⟨v.x / length3 v, v.y / length3 v, v.z / length3 v⟩

/-- `glm::cross` on 3D vectors. -/
noncomputable def cross3 (a b : Vec3) : Vec3 :=
  ⟨a.y * b.z - a.z * b.y, a.z * b.x - a.x * b.z, a.x * b.y - a.y * b.x⟩

/-- Componentwise addition of 3D vectors (`operator+` of `glm::vec3`). -/
noncomputable def vadd3 (a b : Vec3) : Vec3 :=
  ⟨a.x + b.x, a.y + b.y, a.z + b.z⟩

/-! ## Gerstner ocean (`Ocean.hpp` / `Ocean.cpp`) -/

/-- `Ocean::OceanConfig` (Ocean.hpp).  Only the fields the wave/mesh core
reads are modelled; `int` fields are ℤ. -/
structure OceanConfig where
  resolution : ℤ
  size : ℝ
  windDirection : Vec2
  windSpeed : ℝ
  waveAmplitude : ℝ
  waveFrequency : ℝ
  numWaves : ℤ

/-- The default member initializers of `Ocean::OceanConfig` (Ocean.hpp). -/
noncomputable def defaultOceanConfig : OceanConfig :=
  { resolution := 256
    size := 1000
    windDirection := ⟨1, 0.5⟩
    windSpeed := 25
    waveAmplitude := 2
    waveFrequency := 0.02
    numWaves := 6 }

/-- `Ocean::Wave` (Ocean.hpp). -/
structure Wave where
  direction : Vec2
  amplitude : ℝ
  frequency : ℝ
  phase : ℝ
  steepness : ℝ

/-- The wave built by iteration `i` of the loop in `Ocean::GenerateWaveSet`
(Ocean.cpp lines 362-373). -/
noncomputable def generateWave (cfg : OceanConfig) (i : ℕ) : Wave :=
  let windDir := normalize2 cfg.windDirection
  let baseFreq := cfg.waveFrequency
  let baseAmp := cfg.waveAmplitude
  let angle : ℝ := (i : ℝ) * 0.785398
  let dir : Vec2 := ⟨Real.cos angle, Real.sin angle⟩
  let direction := mix2 dir windDir 0.7
  let frequency := baseFreq * (1 + (i : ℝ) * 0.3)
  let amplitude := baseAmp / (1 + (i : ℝ) * 0.5)
  let phase := (i : ℝ) * 1.57079
  let steepness := 0.8 / (frequency * amplitude * (cfg.numWaves : ℝ))
  ⟨direction, amplitude, frequency, phase, steepness⟩

/-- `Ocean::GenerateWaveSet` (Ocean.cpp lines 354-377): the `numWaves`
waves produced in loop order (a non-positive `numWaves` yields no waves,
as the C++ loop body never runs). -/
noncomputable def generateWaveSet (cfg : OceanConfig) : List Wave :=
  (List.range cfg.numWaves.toNat).map (generateWave cfg)

/-- `Ocean::CalculateGerstnerWave` (Ocean.cpp lines 379-409).  Returns the
displacement together with the updated tangent/binormal accumulators
(the C++ function mutates `tangent`/`binormal` in place). -/
noncomputable def calculateGerstnerWave (cfg : OceanConfig) (position : Vec2)
    (wave : Wave) (currentTime : ℝ) (tangent binormal : Vec3) :
    Vec3 × Vec3 × Vec3 :=
  let c := Real.sqrt (9.8 / wave.frequency)
  let d := normalize2 wave.direction
  let f := wave.frequency
  let a := wave.amplitude
  let phi := wave.phase
  let q := wave.steepness / (wave.frequency * a * (cfg.numWaves : ℝ))
  let theta := dot2 d position * f + currentTime * c + phi
  let sinTheta := Real.sin theta
  let cosTheta := Real.cos theta
  let displacement : Vec3 := ⟨q * a * d.x * cosTheta, a * sinTheta, q * a * d.y * cosTheta⟩
  let tangent2 : Vec3 :=
    ⟨tangent.x + -(q * d.x * d.x * f * a * sinTheta),
     tangent.y + d.x * f * a * cosTheta,
     tangent.z + -(q * d.x * d.y * f * a * sinTheta)⟩
  let binormal2 : Vec3 :=
    ⟨binormal.x + -(q * d.x * d.y * f * a * sinTheta),
     binormal.y + d.y * f * a * cosTheta,
     binormal.z + -(q * d.y * d.y * f * a * sinTheta)⟩
  (displacement, tangent2, binormal2)

/-- CPU-path total Gerstner displacement at `(position, t)`: the sum of the
per-wave displacements of `Ocean::CalculateGerstnerWave` over the wave set
of `Ocean::GenerateWaveSet` (the displacement output is independent of the
tangent/binormal accumulators, which are seeded `(1,0,0)`/`(0,0,1)`). -/
noncomputable def cpuTotalDisplacement (cfg : OceanConfig) (position : Vec2)
    (t : ℝ) : Vec3 :=
  ((generateWaveSet cfg).map
      (fun w => (calculateGerstnerWave cfg position w t ⟨1, 0, 0⟩ ⟨0, 0, 1⟩).1)).foldl
    vadd3 ⟨0, 0, 0⟩

/-- The wave built by iteration `i` of the wave-setup loop in the vertex
shader `shaders/ocean.vert` (`main`, the `waves[i] = ...` assignments). -/
noncomputable def shaderGenerateWave (cfg : OceanConfig) (i : ℕ) : Wave :=
  let windDir := normalize2 cfg.windDirection
  let baseFreq := cfg.waveFrequency
  let baseAmp := cfg.waveAmplitude
  let angle : ℝ := (i : ℝ) * 0.785398
  let dir : Vec2 := ⟨Real.cos angle, Real.sin angle⟩
  let direction := mix2 dir windDir 0.7
  let frequency := baseFreq * (1 + (i : ℝ) * 0.3)
  let amplitude := baseAmp / (1 + (i : ℝ) * 0.5)
  let phase := (i : ℝ) * 1.57079
  let steepness := 0.8 / (frequency * amplitude * (cfg.numWaves : ℝ))
  ⟨direction, amplitude, frequency, phase, steepness⟩

/-- `GerstnerWave` of `shaders/ocean.vert` (lines 42-70); `u_numWaves` is the
configured wave count uniform. -/
noncomputable def shaderGerstnerWave (cfg : OceanConfig) (pos : Vec2)
    (wave : Wave) (time : ℝ) (tangent binormal : Vec3) :
    Vec3 × Vec3 × Vec3 :=
  let c := Real.sqrt (9.8 / wave.frequency)
  let d := normalize2 wave.direction
  let f := wave.frequency
  let a := wave.amplitude
  let phi := wave.phase
  let q := wave.steepness / (wave.frequency * a * (cfg.numWaves : ℝ))
  let theta := dot2 d pos * f + time * c + phi
  let sinTheta := Real.sin theta
  let cosTheta := Real.cos theta
  let displacement : Vec3 := ⟨q * a * d.x * cosTheta, a * sinTheta, q * a * d.y * cosTheta⟩
  let tangent2 : Vec3 :=
    ⟨tangent.x + -(q * d.x * d.x * f * a * sinTheta),
     tangent.y + d.x * f * a * cosTheta,
     tangent.z + -(q * d.x * d.y * f * a * sinTheta)⟩
  let binormal2 : Vec3 :=
    ⟨binormal.x + -(q * d.x * d.y * f * a * sinTheta),
     binormal.y + d.y * f * a * cosTheta,
     binormal.z + -(q * d.y * d.y * f * a * sinTheta)⟩
  (displacement, tangent2, binormal2)

/-- GPU-path total displacement computed by `main` of `shaders/ocean.vert`:
the waves loop runs for `i < min(u_numWaves, 8)` and sums the `GerstnerWave`
displacements. -/
noncomputable def gpuTotalDisplacement (cfg : OceanConfig) (pos : Vec2)
    (time : ℝ) : Vec3 :=
  ((List.range (min cfg.numWaves 8).toNat).map
      (fun i => (shaderGerstnerWave cfg pos (shaderGenerateWave cfg i) time
        ⟨1, 0, 0⟩ ⟨0, 0, 1⟩).1)).foldl
    vadd3 ⟨0, 0, 0⟩

/-- `Ocean::SampleWaveHeight` (Ocean.cpp lines 133-148).  `timeAcc` is the
member `time`, used when `currentTime < 0`. -/
noncomputable def sampleWaveHeight (cfg : OceanConfig) (timeAcc : ℝ)
    (x z currentTime : ℝ) : ℝ :=
  let t := if currentTime < 0 then timeAcc else currentTime
  let pos : Vec2 := ⟨x, z⟩
  ((generateWaveSet cfg).map (fun wave =>
      let c := Real.sqrt (9.8 / wave.frequency)
      let d := normalize2 wave.direction
      let theta := dot2 d pos * wave.frequency + t * c + wave.phase
      wave.amplitude * Real.sin theta)).sum

/-! ### Grid mesh generation (`Ocean::GenerateMesh` / `Ocean::GenerateIndices`) -/

/-- The single vertex position pushed for grid point `(x, z)` by
`Ocean::GenerateMesh` (Ocean.cpp lines 181-184):
`worldX = -halfSize + x*stepSize` with `halfSize = size*0.5`,
`stepSize = size/resolution`, and y fixed to 0. -/
noncomputable def meshVertexAt (cfg : OceanConfig) (z x : ℕ) : Vec3 :=
  ⟨-(cfg.size * 0.5) + (x : ℝ) * (cfg.size / (cfg.resolution : ℝ)), 0,
   -(cfg.size * 0.5) + (z : ℝ) * (cfg.size / (cfg.resolution : ℝ))⟩

/-- One inner-loop row (`x = 0..resolution`) of vertex positions of
`Ocean::GenerateMesh`. -/
noncomputable def meshVertexRow (cfg : OceanConfig) (z : ℕ) : List Vec3 :=
  (List.range (cfg.resolution + 1).toNat).map (meshVertexAt cfg z)

/-- The vertex positions pushed by `Ocean::GenerateMesh` (Ocean.cpp lines
179-189): outer loop over `z`, inner over `x`, each `0..resolution`
inclusive. -/
noncomputable def generateMeshVertices (cfg : OceanConfig) : List Vec3 :=
  (List.range (cfg.resolution + 1).toNat).flatMap (meshVertexRow cfg)

/-- The per-vertex normals pushed by `Ocean::GenerateMesh`: all `(0,1,0)`. -/
noncomputable def generateMeshNormals (cfg : OceanConfig) : List Vec3 :=
  (List.range (cfg.resolution + 1).toNat).flatMap fun _ =>
    (List.range (cfg.resolution + 1).toNat).map fun _ => (⟨0, 1, 0⟩ : Vec3)

/-- The texture coordinate pushed for grid point `(x, z)` by
`Ocean::GenerateMesh`: `(x/resolution, z/resolution)`. -/
noncomputable def meshTexCoordAt (cfg : OceanConfig) (z x : ℕ) : Vec2 :=
  ⟨(x : ℝ) / (cfg.resolution : ℝ), (z : ℝ) / (cfg.resolution : ℝ)⟩

/-- One inner-loop row of texture coordinates of `Ocean::GenerateMesh`. -/
noncomputable def meshTexRow (cfg : OceanConfig) (z : ℕ) : List Vec2 :=
  (List.range (cfg.resolution + 1).toNat).map (meshTexCoordAt cfg z)

/-- The texture coordinates pushed by `Ocean::GenerateMesh`. -/
noncomputable def generateMeshTexCoords (cfg : OceanConfig) : List Vec2 :=
  (List.range (cfg.resolution + 1).toNat).flatMap (meshTexRow cfg)

/-- The six indices pushed for grid cell `(x, z)` by `Ocean::GenerateIndices`
(Ocean.cpp lines 202-218): `topLeft, bottomLeft, topRight` then
`topRight, bottomLeft, bottomRight`. -/
def quadIndices (rp1 z x : ℕ) : List ℕ :=
  let topLeft := z * rp1 + x
  let topRight := topLeft + 1
  let bottomLeft := (z + 1) * rp1 + x
  let bottomRight := bottomLeft + 1
  [topLeft, bottomLeft, topRight, topRight, bottomLeft, bottomRight]

/-- One inner-loop row (`x = 0..resolution-1`) of `Ocean::GenerateIndices`. -/
def meshIndexRow (cfg : OceanConfig) (z : ℕ) : List ℕ :=
  (List.range cfg.resolution.toNat).flatMap fun x =>
    quadIndices (cfg.resolution + 1).toNat z x

/-- `Ocean::GenerateIndices` (Ocean.cpp lines 197-220): outer loop over `z`,
inner over `x`, each `0..resolution-1`. -/
def generateIndices (cfg : OceanConfig) : List ℕ :=
  (List.range cfg.resolution.toNat).flatMap (meshIndexRow cfg)

/-! ## Spectral ocean (`OceanFFT.hpp` in `src/unnamed/part_000`,
`OceanFFT.cpp` in `src/unnamed/part_004`) -/

/-- The file-scope constant `PI = 3.14159265359f` of OceanFFT.cpp. -/
noncomputable def PI : ℝ := 3.14159265359

/-- `OceanFFT::WaveParameters` with its default member initializers. -/
structure WaveParameters where
  A : ℝ := 0.0001
  windSpeed : Vec2 := ⟨32, 32⟩
  windDirection : Vec2 := ⟨1, 1⟩
  lambda : ℝ := -1
  L : ℝ := 200
  damping : ℝ := 0.001
  gravity : ℝ := 9.81

/-- `OceanFFT::OceanConfig` with its default member initializers. -/
structure FFTOceanConfig where
  N : ℤ := 512
  oceanSize : ℝ := 1000
  timeScale : ℝ := 1
  enableChoppiness : Bool := true
  enableFoam : Bool := true
  foamThreshold : ℝ := 0.8

/-- `OceanFFT::Complex`. -/
structure Complex where
  real : ℝ
  imag : ℝ

/-- `OceanFFT::Complex::operator*`. -/
noncomputable def cmul (a b : Complex) : Complex :=
  ⟨a.real * b.real - a.imag * b.imag, a.real * b.imag + a.imag * b.real⟩

/-- `OceanFFT::IsPowerOfTwo` (part_004 lines 455-457):
`value > 0 && (value & (value - 1)) == 0`. -/
def isPowerOfTwo (value : ℤ) : Bool :=
  decide (0 < value) && (Int.land value (value - 1) == 0)

/-- `OceanFFT::GetWaveVector` (part_004 lines 440-444):
`k = 2*PI*(index - N/2) / oceanSize` on each axis (integer arithmetic in
`n - N/2`; C++ `/` on `int` truncates, hence `Int.tdiv`). -/
noncomputable def getWaveVector (cfg : FFTOceanConfig) (n m : ℕ) : Vec2 :=
  ⟨2 * PI * (((n : ℤ) - Int.tdiv cfg.N 2 : ℤ) : ℝ) / cfg.oceanSize,
   2 * PI * (((m : ℤ) - Int.tdiv cfg.N 2 : ℤ) : ℝ) / cfg.oceanSize⟩

open Classical in
/-- `OceanFFT::PhillipsSpectrum` (part_004 lines 324-342). -/
noncomputable def phillipsSpectrum (p : WaveParameters) (k : Vec2) : ℝ :=
  let kLength := length2 k
  if kLength < 0.000001 then 0
  else
    let kLength2 := kLength * kLength
    let kLength4 := kLength2 * kLength2
    let kNormalized : Vec2 := ⟨k.x / kLength, k.y / kLength⟩
    let windNormalized := normalize2 p.windDirection
    let kDotWind := dot2 kNormalized windNormalized
    let kDotWind2 := kDotWind * kDotWind
    let L := length2 p.windSpeed * length2 p.windSpeed / p.gravity
    let damping := Real.exp (-kLength2 * p.damping * p.damping)
    p.A * Real.exp (-1 / (kLength2 * L * L)) / kLength4 * kDotWind2 * damping

open Classical in
/-- Modelled from the spec: the reference Phillips formula of spec §4.3 —
`0` for the zero wavevector, otherwise
`A · exp(−1/(|k|²L²)) / |k|⁴ · (k̂·windDirection̂)² · exp(−|k|²·damping²)`
with `L = |windSpeed|²/gravity`.  Used only to compare the source
implementation against the spec wording (claim C3). -/
noncomputable def phillipsReference (p : WaveParameters) (k : Vec2) : ℝ :=
  if length2 k = 0 then 0
  else
    let L := length2 p.windSpeed ^ 2 / p.gravity
    p.A * Real.exp (-1 / (length2 k ^ 2 * L ^ 2)) / length2 k ^ 4 *
      dot2 (normalize2 k) (normalize2 p.windDirection) ^ 2 *
      Real.exp (-(length2 k ^ 2) * p.damping ^ 2)

open Classical in
/-- One cell of `OceanFFT::GenerateInitialSpectrum` (part_004 lines 308-321).
The Mersenne-Twister/normal-distribution pair of `GetGaussianRandom` is
modelled by an abstract sample stream `g` with cursor `pos`: one call
consumes `g pos` (real part) and `g (pos+1)` (imaginary part).  The C++
`gaussianRand * sqrt(phillips * 0.5f)` multiplies by the implicitly
converted `Complex(s, 0)`.  Returns the cell value and the new cursor. -/
noncomputable def spectrumCell (cfg : FFTOceanConfig) (p : WaveParameters)
    (g : ℕ → ℝ) (pos n m : ℕ) : Complex × ℕ :=
  let k := getWaveVector cfg n m
  if length2 k < 0.000001 then (⟨0, 0⟩, pos)
  else
    let phillips := phillipsSpectrum p k
    let gaussianRand : Complex := ⟨g pos, g (pos + 1)⟩
    (cmul gaussianRand ⟨Real.sqrt (phillips * 0.5), 0⟩, pos + 2)

/-- The first `j` cells (in the row-major order `m` outer, `n` inner, i.e.
flat index `m*N + n`) written by `OceanFFT::GenerateInitialSpectrum`,
together with the random-stream cursor after them. -/
noncomputable def spectrumAux (cfg : FFTOceanConfig) (p : WaveParameters)
    (g : ℕ → ℝ) : ℕ → List Complex × ℕ
  | 0 => ([], 0)
  | j + 1 =>
    let prev := spectrumAux cfg p g j
    let cell := spectrumCell cfg p g prev.2 (j % cfg.N.toNat) (j / cfg.N.toNat)
    (prev.1 ++ [cell.1], cell.2)

/-- `OceanFFT::GenerateInitialSpectrum` (part_004 lines 305-322): the full
`N*N` spectrum. -/
noncomputable def generateInitialSpectrum (cfg : FFTOceanConfig)
    (p : WaveParameters) (g : ℕ → ℝ) : List Complex :=
  (spectrumAux cfg p g (cfg.N.toNat * cfg.N.toNat)).1

/-- The observable CPU-side state of an `OceanFFT` object (GL handle ids and
shader objects are resources of the excluded rendering layer and are not
modelled). -/
structure OceanFFTState where
  waveParams : WaveParameters
  config : FFTOceanConfig
  initialSpectrum : List Complex
  vertices : List ℝ
  indices : List ℕ
  time : ℝ
  isInitialized : Bool

/-- `OceanFFT::Cleanup` (part_004 lines 53-79): releases GL resources and
shaders (not modelled) and clears `isInitialized`; the CPU-side
`initialSpectrum`/`vertices`/`indices` vectors are not touched. -/
def oceanFFTCleanup (s : OceanFFTState) : OceanFFTState :=
  { s with isInitialized := false }

/-- The vertex stream built by `OceanFFT::CreateGeometry` (part_004 lines
194-206): `N×N` vertices of 5 floats (position + uv),
`step = oceanSize/(N-1)`. -/
noncomputable def fftGeometryVertices (cfg : FFTOceanConfig) : List ℝ :=
  (List.range cfg.N.toNat).flatMap fun z =>
    (List.range cfg.N.toNat).flatMap fun x =>
      let halfSize := cfg.oceanSize * 0.5
      let step := cfg.oceanSize / ((cfg.N : ℝ) - 1)
      [-halfSize + (x : ℝ) * step, 0, -halfSize + (z : ℝ) * step,
       (x : ℝ) / ((cfg.N : ℝ) - 1), (z : ℝ) / ((cfg.N : ℝ) - 1)]

/-- The index stream built by `OceanFFT::CreateGeometry` (part_004 lines
209-226). -/
def fftGeometryIndices (cfg : FFTOceanConfig) : List ℕ :=
  (List.range (cfg.N.toNat - 1)).flatMap fun z =>
    (List.range (cfg.N.toNat - 1)).flatMap fun x =>
      let topLeft := z * cfg.N.toNat + x
      let topRight := topLeft + 1
      let bottomLeft := (z + 1) * cfg.N.toNat + x
      let bottomRight := bottomLeft + 1
      [topLeft, bottomLeft, topRight, topRight, bottomLeft, bottomRight]

/-- `OceanFFT::Initialize` (part_004 lines 19-51).  `g` models the Gaussian
sample stream; `shadersOk` models the success of `InitializeShaders`
(loading `shaders/ocean_fft.*` through the excluded rendering layer —
`CreateGeometry`, `CreateTextures` and `CreateFramebuffers` always return
`true` in the source).  Steps, in source order: `Cleanup` when already
initialized; `config = cfg`; reject unless `IsPowerOfTwo(config.N)`; build
geometry; initialize shaders; `GenerateInitialSpectrum`; set
`isInitialized`. -/
noncomputable def oceanFFTInitialize (s : OceanFFTState) (cfg : FFTOceanConfig)
    (g : ℕ → ℝ) (shadersOk : Bool) : OceanFFTState × Bool :=
  let s1 := if s.isInitialized then oceanFFTCleanup s else s
  let s2 := { s1 with config := cfg }
  if isPowerOfTwo cfg.N = false then (s2, false)
  else
    let s3 := { s2 with
      vertices := fftGeometryVertices cfg
      indices := fftGeometryIndices cfg }
    if shadersOk = false then (s3, false)
    else
      let s4 := { s3 with
        initialSpectrum := generateInitialSpectrum cfg s3.waveParams g }
      ({ s4 with isInitialized := true }, true)

open Classical in
/-- `OceanFFT::SampleHeight` (part_004 lines 139-159): returns 0 when not
initialized, otherwise an 8-octave sine/cosine approximation
(`freq = 0.01 * 2^i`, `amp = A / 2^i`). -/
noncomputable def fftSampleHeight (s : OceanFFTState) (x z currentTime : ℝ) : ℝ :=
  if s.isInitialized = false then 0
  else
    let t := if currentTime < 0 then s.time else currentTime
    ((List.range 8).map (fun i =>
        let freq := 0.01 * (2 : ℝ) ^ i
        let amp := s.waveParams.A / (2 : ℝ) ^ i
        amp * Real.sin (x * freq + t) * Real.cos (z * freq + t * 0.7))).sum

/-- `OceanFFT::SampleNormal` (part_004 lines 161-174): `(0,1,0)` when not
initialized, otherwise a finite-difference normal with `epsilon = 0.1`. -/
noncomputable def fftSampleNormal (s : OceanFFTState) (x z currentTime : ℝ) : Vec3 :=
  if s.isInitialized = false then ⟨0, 1, 0⟩
  else
    let epsilon : ℝ := 0.1
    let h0 := fftSampleHeight s x z currentTime
    let hx := fftSampleHeight s (x + epsilon) z currentTime
    let hz := fftSampleHeight s x (z + epsilon) currentTime
    let tangentX := normalize3 ⟨epsilon, hx - h0, 0⟩
    let tangentZ := normalize3 ⟨0, hz - h0, epsilon⟩
    normalize3 (cross3 tangentZ tangentX)

/-- `OceanFFT::SampleDisplacement` (part_004 lines 176-184): `(0,0)` when
not initialized or choppiness is disabled, otherwise a simplified
`lambda`-scaled displacement. -/
noncomputable def fftSampleDisplacement (s : OceanFFTState) (x z currentTime : ℝ) : Vec2 :=
  if s.isInitialized = false ∨ s.config.enableChoppiness = false then ⟨0, 0⟩
  else
    ⟨s.waveParams.lambda * 0.1 * Real.cos (x * 0.01 + currentTime),
     s.waveParams.lambda * 0.1 * Real.sin (z * 0.01 + currentTime * 0.8)⟩

/-! ## Concrete instances used by witnesses and counterexamples -/

/-- An `FFTOceanConfig` differing from the defaults only in `N`. -/
noncomputable def fftConfigN (n : ℤ) : FFTOceanConfig := { N := n }

/-- A fresh (never-initialized) `OceanFFT` state, as after the constructor. -/
noncomputable def sampleFFTState : OceanFFTState :=
  { waveParams := {}
    config := {}
    initialSpectrum := []
    vertices := []
    indices := []
    time := 0
    isInitialized := false }

/-- An initialized `OceanFFT` state with a valid 512-grid configuration and
a (placeholder) nonempty spectrum. -/
noncomputable def initializedFFTState : OceanFFTState :=
  { waveParams := {}
    config := { N := 512 }
    initialSpectrum := [⟨1, 0⟩]
    vertices := []
    indices := []
    time := 0
    isInitialized := true }

/-- An uninitialized state whose configuration disables choppiness. -/
noncomputable def noChopFFTState : OceanFFTState :=
  { sampleFFTState with config := { enableChoppiness := false } }

/-- An initialized state whose configuration disables choppiness. -/
noncomputable def initializedNoChopFFTState : OceanFFTState :=
  { initializedFFTState with config := { N := 512, enableChoppiness := false } }

/-- Wave parameters with `A = 1` and axis-aligned unit wind, used to exhibit
the Phillips cutoff behaviour. -/
noncomputable def phillipsParamsTest : WaveParameters :=
  { A := 1, windSpeed := ⟨1, 0⟩, windDirection := ⟨1, 0⟩ }

/-- A wavevector with `0 < |k| < 1e-6`. -/
noncomputable def kTiny : Vec2 := ⟨0.0000001, 0⟩

/-- The end-to-end scenario configuration of spec §8.7:
`windDirection=(1,0)`, `waveAmplitude=1.0`, `waveFrequency=0.02`,
`numWaves=1` (other fields at their defaults). -/
noncomputable def oceanConfigC8 : OceanConfig :=
  { defaultOceanConfig with
    windDirection := ⟨1, 0⟩
    waveAmplitude := 1
    waveFrequency := 0.02
    numWaves := 1 }

/-- A Gerstner configuration with nine waves (one more than the shader's
hard cap of 8) and axis-aligned wind. -/
noncomputable def oceanConfigNine : OceanConfig :=
  { defaultOceanConfig with
    windDirection := ⟨1, 0⟩
    waveAmplitude := 2
    waveFrequency := 0.02
    numWaves := 9 }

/-! ## Theorems -/

/-- C2: `OceanFFT::Initialize` returns failure for the non-power-of-two
resolutions 100, 300, 513 — leaving the stored spectrum untouched, i.e. the
validation happens before any spectrum generation — and returns success for
the power-of-two resolutions 64, 128, 512, 1024 (when the external shader
setup succeeds). -/
theorem initialize_validates_powerOfTwo (s : OceanFFTState) (g : ℕ → ℝ)
    (b : Bool) (cfg : FFTOceanConfig) :
    ((cfg.N = 100 ∨ cfg.N = 300 ∨ cfg.N = 513) →
      (oceanFFTInitialize s cfg g b).2 = false ∧
      (oceanFFTInitialize s cfg g b).1.initialSpectrum = s.initialSpectrum) ∧
    ((cfg.N = 64 ∨ cfg.N = 128 ∨ cfg.N = 512 ∨ cfg.N = 1024) →
      (oceanFFTInitialize s cfg g true).2 = true) := by
  constructor
  · rintro (h | h | h) <;>
      (have hp : isPowerOfTwo cfg.N = false := by rw [h]; decide) <;>
      cases hI : s.isInitialized <;>
      simp [oceanFFTInitialize, hp, hI, oceanFFTCleanup]
  · rintro (h | h | h | h) <;>
      (have hp : isPowerOfTwo cfg.N = true := by rw [h]; decide) <;>
      cases hI : s.isInitialized <;>
      simp [oceanFFTInitialize, hp, hI, oceanFFTCleanup]

/-- Witness for C2 at concrete inputs: `N = 100` fails without touching the
spectrum, `N = 512` succeeds. -/
theorem initialize_validates_powerOfTwo_witness :
    ((oceanFFTInitialize sampleFFTState (fftConfigN 100) (fun _ => 0) true).2 = false ∧
      (oceanFFTInitialize sampleFFTState (fftConfigN 100) (fun _ => 0) true).1.initialSpectrum =
        sampleFFTState.initialSpectrum) ∧
    (oceanFFTInitialize sampleFFTState (fftConfigN 512) (fun _ => 0) true).2 = true :=
  ⟨(initialize_validates_powerOfTwo sampleFFTState (fun _ => 0) true
      (fftConfigN 100)).1 (Or.inl rfl),
   (initialize_validates_powerOfTwo sampleFFTState (fun _ => 0) true
      (fftConfigN 512)).2 (Or.inr (Or.inr (Or.inl rfl)))⟩

/-- C5 counterexample: calling `Initialize` with an invalid (non-power-of-two)
configuration on an initialized surface returns failure but does NOT leave the
observable state unchanged — the stored configuration is overwritten with the
invalid one and the surface is left uninitialized. -/
theorem initialize_invalid_mutates_state :
    (oceanFFTInitialize initializedFFTState (fftConfigN 100) (fun _ => 0) true).2 = false ∧
    (oceanFFTInitialize initializedFFTState (fftConfigN 100) (fun _ => 0) true).1 ≠
      initializedFFTState := by
  have hp : isPowerOfTwo (100 : ℤ) = false := by decide
  constructor
  · simp [oceanFFTInitialize, hp, initializedFFTState, oceanFFTCleanup, fftConfigN]
  · intro h
    have hc := congrArg (fun st => st.config.N) h
    simp only [oceanFFTInitialize, initializedFFTState, oceanFFTCleanup, fftConfigN] at hc
    rw [hp] at hc
    norm_num at hc

/-- C5 (amended): `Initialize` with a non-power-of-two resolution returns
failure, generates no spectrum, touches no geometry, and leaves the surface
uninitialized — but the stored configuration is overwritten with the new
(invalid) configuration, and an initialized surface is first cleaned up. -/
theorem initialize_invalid_keeps_spectrum (s : OceanFFTState)
    (cfg : FFTOceanConfig) (g : ℕ → ℝ) (b : Bool)
    (h : isPowerOfTwo cfg.N = false) :
    (oceanFFTInitialize s cfg g b).2 = false ∧
    (oceanFFTInitialize s cfg g b).1.initialSpectrum = s.initialSpectrum ∧
    (oceanFFTInitialize s cfg g b).1.vertices = s.vertices ∧
    (oceanFFTInitialize s cfg g b).1.indices = s.indices ∧
    (oceanFFTInitialize s cfg g b).1.isInitialized = false ∧
    (oceanFFTInitialize s cfg g b).1.config = cfg := by
  cases hI : s.isInitialized <;>
    simp [oceanFFTInitialize, h, hI, oceanFFTCleanup]

/-- Witness for the amended C5 at a concrete initialized state and `N=100`. -/
theorem initialize_invalid_keeps_spectrum_witness :
    (oceanFFTInitialize initializedFFTState (fftConfigN 100) (fun _ => 0) false).2 = false ∧
    (oceanFFTInitialize initializedFFTState (fftConfigN 100) (fun _ => 0) false).1.initialSpectrum =
      initializedFFTState.initialSpectrum ∧
    (oceanFFTInitialize initializedFFTState (fftConfigN 100) (fun _ => 0) false).1.vertices =
      initializedFFTState.vertices ∧
    (oceanFFTInitialize initializedFFTState (fftConfigN 100) (fun _ => 0) false).1.indices =
      initializedFFTState.indices ∧
    (oceanFFTInitialize initializedFFTState (fftConfigN 100) (fun _ => 0) false).1.isInitialized = false ∧
    (oceanFFTInitialize initializedFFTState (fftConfigN 100) (fun _ => 0) false).1.config =
      fftConfigN 100 :=
  initialize_invalid_keeps_spectrum initializedFFTState (fftConfigN 100)
    (fun _ => 0) false (by decide)

/-- C10: on a spectral surface that is not initialized, `SampleHeight`
returns 0, `SampleNormal` returns `(0,1,0)` and `SampleDisplacement` returns
`(0,0)`, for all arguments; and `SampleDisplacement` returns `(0,0)` whenever
choppiness is disabled. -/
theorem fftSample_uninitialized_defaults (s : OceanFFTState) (x z t : ℝ) :
    (s.isInitialized = false →
      fftSampleHeight s x z t = 0 ∧
      fftSampleNormal s x z t = ⟨0, 1, 0⟩ ∧
      fftSampleDisplacement s x z t = ⟨0, 0⟩) ∧
    (s.config.enableChoppiness = false →
      fftSampleDisplacement s x z t = ⟨0, 0⟩) := by
  constructor
  · intro h
    refine ⟨?_, ?_, ?_⟩ <;>
      simp [fftSampleHeight, fftSampleNormal, fftSampleDisplacement, h]
  · intro h
    simp [fftSampleDisplacement, h]

/-- Witness for C10: the defaults at a concrete uninitialized state, and the
choppiness-disabled default at a concrete initialized state. -/
theorem fftSample_uninitialized_defaults_witness :
    fftSampleHeight sampleFFTState 3 4 5 = 0 ∧
    fftSampleDisplacement initializedNoChopFFTState 3 4 5 = ⟨0, 0⟩ :=
  ⟨((fftSample_uninitialized_defaults sampleFFTState 3 4 5).1 rfl).1,
   (fftSample_uninitialized_defaults initializedNoChopFFTState 3 4 5).2 rfl⟩

/-- C9 counterexample: with the default configuration
(`waveFrequency=0.02`, `waveAmplitude=2`, `numWaves=6`), the first generated
wave has steepness `0.8 / (0.02·2·6) = 10/3 > 1`, so steepness does NOT lie
in `[0,1]`. -/
theorem generateWaveSet_steepness_above_one :
    generateWave defaultOceanConfig 0 ∈ generateWaveSet defaultOceanConfig ∧
    ¬ (generateWave defaultOceanConfig 0).steepness ≤ 1 := by
  constructor
  · simp only [generateWaveSet, List.mem_map]
    exact ⟨0, by simp [defaultOceanConfig], rfl⟩
  · simp only [generateWave, defaultOceanConfig]
    norm_num

/-- C9 (amended): every generated wave's steepness is positive and satisfies
`steepness · (frequency · amplitude · numWaves) = 0.8`; it is not in general
bounded by 1. -/
theorem generateWaveSet_steepness_eq (cfg : OceanConfig)
    (hf : 0 < cfg.waveFrequency) (ha : 0 < cfg.waveAmplitude)
    (hn : 1 ≤ cfg.numWaves) :
    ∀ w ∈ generateWaveSet cfg,
      0 < w.steepness ∧
      w.steepness * (w.frequency * w.amplitude * (cfg.numWaves : ℝ)) = 0.8 := by
  intro w hw
  simp only [generateWaveSet, List.mem_map, List.mem_range] at hw
  obtain ⟨i, hi, rfl⟩ := hw
  have h1 : (0 : ℝ) < 1 + (i : ℝ) * 0.3 := by positivity
  have h2 : (0 : ℝ) < 1 + (i : ℝ) * 0.5 := by positivity
  have h3 : (0 : ℝ) < (cfg.numWaves : ℝ) := by
    have : (1 : ℝ) ≤ (cfg.numWaves : ℝ) := by exact_mod_cast hn
    linarith
  have hfreq : (0 : ℝ) < cfg.waveFrequency * (1 + (i : ℝ) * 0.3) := mul_pos hf h1
  have hamp : (0 : ℝ) < cfg.waveAmplitude / (1 + (i : ℝ) * 0.5) := div_pos ha h2
  constructor
  · simp only [generateWave]
    positivity
  · simp only [generateWave]
    have hD : cfg.waveFrequency * (1 + (i : ℝ) * 0.3) *
        (cfg.waveAmplitude / (1 + (i : ℝ) * 0.5)) * (cfg.numWaves : ℝ) ≠ 0 := by
      positivity
    field_simp

/-- Witness for the amended C9: the first default-configuration wave. -/
theorem generateWaveSet_steepness_eq_witness :
    0 < (generateWave defaultOceanConfig 0).steepness ∧
    (generateWave defaultOceanConfig 0).steepness *
      ((generateWave defaultOceanConfig 0).frequency *
        (generateWave defaultOceanConfig 0).amplitude *
        ((defaultOceanConfig).numWaves : ℝ)) = 0.8 :=
  generateWaveSet_steepness_eq defaultOceanConfig
    (by norm_num [defaultOceanConfig]) (by norm_num [defaultOceanConfig])
    (by norm_num [defaultOceanConfig])
    (generateWave defaultOceanConfig 0)
    (by simp only [generateWaveSet, List.mem_map]
        exact ⟨0, by simp [defaultOceanConfig], rfl⟩)

/-- C6: for every configuration with positive base frequency and wave count
`K ≥ 1`, every generated wave satisfies the no-self-intersection bound
`steepness · amplitude · K ≤ 1/frequency + ε` for every `ε ≥ 0` (in fact the
stronger bound with `0.8` in place of `1` holds). -/
theorem generateWaveSet_self_intersection_bound (cfg : OceanConfig)
    (hf : 0 < cfg.waveFrequency) (hn : 1 ≤ cfg.numWaves)
    (eps : ℝ) (heps : 0 ≤ eps) :
    ∀ w ∈ generateWaveSet cfg,
      w.steepness * w.amplitude * (cfg.numWaves : ℝ) ≤ 1 / w.frequency + eps := by
  intro w hw
  simp only [generateWaveSet, List.mem_map, List.mem_range] at hw
  obtain ⟨i, hi, rfl⟩ := hw
  have h1 : (0 : ℝ) < 1 + (i : ℝ) * 0.3 := by positivity
  have h2 : (0 : ℝ) < 1 + (i : ℝ) * 0.5 := by positivity
  have h3 : (0 : ℝ) < (cfg.numWaves : ℝ) := by
    have : (1 : ℝ) ≤ (cfg.numWaves : ℝ) := by exact_mod_cast hn
    linarith
  have hfreq : (0 : ℝ) < cfg.waveFrequency * (1 + (i : ℝ) * 0.3) := mul_pos hf h1
  simp only [generateWave]
  by_cases hA : cfg.waveAmplitude = 0
  · have hinv : (0 : ℝ) < 1 / (cfg.waveFrequency * (1 + (i : ℝ) * 0.3)) :=
      by positivity
    simp only [hA, zero_div, mul_zero, zero_mul]
    linarith
  · have hamp : cfg.waveAmplitude / (1 + (i : ℝ) * 0.5) ≠ 0 :=
      div_ne_zero hA (ne_of_gt h2)
    have key : 0.8 / (cfg.waveFrequency * (1 + (i : ℝ) * 0.3) *
          (cfg.waveAmplitude / (1 + (i : ℝ) * 0.5)) * (cfg.numWaves : ℝ)) *
        (cfg.waveAmplitude / (1 + (i : ℝ) * 0.5)) * (cfg.numWaves : ℝ) =
        0.8 / (cfg.waveFrequency * (1 + (i : ℝ) * 0.3)) := by
      field_simp
      ring
    rw [key]
    have hmono : 0.8 / (cfg.waveFrequency * (1 + (i : ℝ) * 0.3)) ≤
        1 / (cfg.waveFrequency * (1 + (i : ℝ) * 0.3)) :=
      (div_le_div_iff_of_pos_right hfreq).mpr (by norm_num)
    linarith

/-- Witness for C6: the bound at the first default-configuration wave with
`ε = 0`. -/
theorem generateWaveSet_self_intersection_bound_witness :
    (generateWave defaultOceanConfig 0).steepness *
      (generateWave defaultOceanConfig 0).amplitude *
      ((defaultOceanConfig).numWaves : ℝ) ≤
      1 / (generateWave defaultOceanConfig 0).frequency + 0 :=
  generateWaveSet_self_intersection_bound defaultOceanConfig
    (by norm_num [defaultOceanConfig]) (by norm_num [defaultOceanConfig])
    0 le_rfl (generateWave defaultOceanConfig 0)
    (by simp only [generateWaveSet, List.mem_map]
        exact ⟨0, by simp [defaultOceanConfig], rfl⟩)

/-- C8: for the end-to-end scenario configuration
(`windDirection=(1,0)`, `waveAmplitude=1`, `waveFrequency=0.02`,
`numWaves=1`), `SampleWaveHeight(0,0,0)` equals
`waveAmplitude · sin(phase₀)` where `phase₀` is the phase of the single
generated wave — for any value of the internal time accumulator (the
explicit `currentTime = 0` is not negative, so the accumulator is unused). -/
theorem sampleWaveHeight_origin_single_wave (timeAcc : ℝ) :
    sampleWaveHeight oceanConfigC8 timeAcc 0 0 0 =
      oceanConfigC8.waveAmplitude *
        Real.sin ((generateWave oceanConfigC8 0).phase) := by
  have hK : (oceanConfigC8.numWaves).toNat = 1 := by
    simp [oceanConfigC8, defaultOceanConfig]
  simp only [sampleWaveHeight, generateWaveSet, hK, List.range_succ,
    List.range_zero, List.nil_append, List.map_cons, List.map_nil,
    List.sum_cons, List.sum_nil]
  rw [if_neg (by norm_num)]
  simp only [generateWave, dot2]
  norm_num [oceanConfigC8, defaultOceanConfig]

/-- C3 counterexample: for `k = (1e-7, 0)` we have `|k| > 0`, but
`PhillipsSpectrum` returns exactly 0 while the reference formula of the spec
is strictly positive — the code zeroes out ALL wavevectors with
`|k| < 1e-6`, not only the zero wavevector. -/
theorem phillipsSpectrum_cutoff_disagrees :
    0 < length2 kTiny ∧
    phillipsSpectrum phillipsParamsTest kTiny = 0 ∧
    phillipsSpectrum phillipsParamsTest kTiny ≠
      phillipsReference phillipsParamsTest kTiny := by
  have hlen : length2 kTiny = 0.0000001 := by
    have : (0.0000001 : ℝ) * 0.0000001 + 0 * 0 = 0.0000001 ^ 2 := by ring
    simp only [length2, kTiny, this]
    exact Real.sqrt_sq (by norm_num)
  have hzero : phillipsSpectrum phillipsParamsTest kTiny = 0 := by
    simp only [phillipsSpectrum]
    rw [if_pos (by rw [hlen]; norm_num)]
  refine ⟨by rw [hlen]; norm_num, hzero, ?_⟩
  rw [hzero]
  intro h
  have hpos : 0 < phillipsReference phillipsParamsTest kTiny := by
    simp only [phillipsReference]
    rw [if_neg (by rw [hlen]; norm_num)]
    have hA : phillipsParamsTest.A = 1 := rfl
    have hg : phillipsParamsTest.gravity = 9.81 := rfl
    have hd : phillipsParamsTest.damping = 0.001 := rfl
    have hdot : dot2 (normalize2 kTiny) (normalize2 phillipsParamsTest.windDirection) = 1 := by
      have hw : length2 (⟨1, 0⟩ : Vec2) = 1 := by
        have : (1 : ℝ) * 1 + 0 * 0 = 1 := by ring
        simp only [length2, this, Real.sqrt_one]
      have hlt : length2 (⟨0.0000001, 0⟩ : Vec2) = 0.0000001 := hlen
      simp only [normalize2, dot2, kTiny, phillipsParamsTest, hlt, hw]
      norm_num
    rw [hdot, hlen, hA]
    positivity
  linarith

/-- C3 (amended): `PhillipsSpectrum` returns 0 for every wavevector with
`|k| < 1e-6` (in particular for `k = (0,0)`, with no division by zero), and
for every wavevector with `|k| ≥ 1e-6` it equals the reference formula
`A · exp(−1/(|k|²L²)) / |k|⁴ · (k̂·ŵ)² · exp(−|k|²·damping²)`,
`L = |windSpeed|²/gravity`. -/
theorem phillipsSpectrum_total_and_reference (p : WaveParameters) (k : Vec2) :
    phillipsSpectrum p ⟨0, 0⟩ = 0 ∧
    (length2 k < 0.000001 → phillipsSpectrum p k = 0) ∧
    (0.000001 ≤ length2 k →
      phillipsSpectrum p k = phillipsReference p k) := by
  refine ⟨?_, ?_, ?_⟩
  · simp only [phillipsSpectrum]
    rw [if_pos]
    have : (0 : ℝ) * 0 + 0 * 0 = 0 := by ring
    simp only [length2, this, Real.sqrt_zero]
    norm_num
  · intro h
    simp only [phillipsSpectrum]
    rw [if_pos h]
  · intro h
    have hne : length2 k ≠ 0 := by intro h0; rw [h0] at h; norm_num at h
    simp only [phillipsSpectrum, phillipsReference, normalize2]
    rw [if_neg (not_lt.mpr h), if_neg hne]
    ring_nf

/-- Witness for the amended C3: the zero-wavevector conjunct, and the
reference-agreement conjunct discharged at `k = (1,0)` where
`|k| = 1 ≥ 1e-6`. -/
theorem phillipsSpectrum_total_and_reference_witness :
    phillipsSpectrum phillipsParamsTest ⟨0, 0⟩ = 0 ∧
    phillipsSpectrum phillipsParamsTest ⟨1, 0⟩ =
      phillipsReference phillipsParamsTest ⟨1, 0⟩ :=
  ⟨(phillipsSpectrum_total_and_reference phillipsParamsTest ⟨1, 0⟩).1,
   (phillipsSpectrum_total_and_reference phillipsParamsTest ⟨1, 0⟩).2.2
     (by
       have : (1 : ℝ) * 1 + 0 * 0 = 1 := by ring
       simp only [length2, this, Real.sqrt_one]
       norm_num)⟩

/-- Loop invariant of `OceanFFT::GenerateInitialSpectrum`: after `j` cells,
the written list has length `j` and its `i`-th entry is the cell computed
from the random-stream cursor as it stood before cell `i`. -/
theorem spectrumAux_spec (cfg : FFTOceanConfig) (p : WaveParameters)
    (g : ℕ → ℝ) (j : ℕ) :
    (spectrumAux cfg p g j).1.length = j ∧
    ∀ i, i < j →
      (spectrumAux cfg p g j).1[i]? =
        some (spectrumCell cfg p g (spectrumAux cfg p g i).2
          (i % cfg.N.toNat) (i / cfg.N.toNat)).1 := by
  induction j with
  | zero => exact ⟨rfl, fun i hi => absurd hi (Nat.not_lt_zero i)⟩
  | succ j ih =>
    obtain ⟨ihlen, ihget⟩ := ih
    have hstep : (spectrumAux cfg p g (j + 1)).1 =
        (spectrumAux cfg p g j).1 ++
          [(spectrumCell cfg p g (spectrumAux cfg p g j).2
            (j % cfg.N.toNat) (j / cfg.N.toNat)).1] := rfl
    constructor
    · rw [hstep, List.length_append, ihlen]
      rfl
    · intro i hi
      rcases Nat.lt_succ_iff_lt_or_eq.mp hi with hlt | rfl
      · rw [hstep, List.getElem?_append_left (by rw [ihlen]; exact hlt)]
        exact ihget i hlt
      · rw [hstep, List.getElem?_append_right (le_of_eq ihlen), ihlen,
          Nat.sub_self]
        rfl

/-- C4: `GenerateInitialSpectrum` fills all `N·N` cells; the wavevector of
cell `(n,m)` is `2·PI·(index − N/2)/oceanSize` per axis; a cell whose
wavevector has `|k| < 1e-6` is set to complex zero and draws no random
samples; every other cell is set to the next fresh complex Gaussian pair
`(g pos, g (pos+1))` (advancing the stream cursor by two) times
`√(Phillips(k)·0.5)`. -/
theorem generateInitialSpectrum_cells (cfg : FFTOceanConfig)
    (p : WaveParameters) (g : ℕ → ℝ) (n m : ℕ)
    (hn : n < cfg.N.toNat) (hm : m < cfg.N.toNat) :
    (generateInitialSpectrum cfg p g).length = cfg.N.toNat * cfg.N.toNat ∧
    getWaveVector cfg n m =
      ⟨2 * PI * (((n : ℤ) - Int.tdiv cfg.N 2 : ℤ) : ℝ) / cfg.oceanSize,
       2 * PI * (((m : ℤ) - Int.tdiv cfg.N 2 : ℤ) : ℝ) / cfg.oceanSize⟩ ∧
    (length2 (getWaveVector cfg n m) < 0.000001 →
      (generateInitialSpectrum cfg p g)[m * cfg.N.toNat + n]? =
        some ⟨0, 0⟩ ∧
      (spectrumAux cfg p g (m * cfg.N.toNat + n + 1)).2 =
        (spectrumAux cfg p g (m * cfg.N.toNat + n)).2) ∧
    (¬ length2 (getWaveVector cfg n m) < 0.000001 →
      (generateInitialSpectrum cfg p g)[m * cfg.N.toNat + n]? =
        some (cmul
          ⟨g ((spectrumAux cfg p g (m * cfg.N.toNat + n)).2),
           g ((spectrumAux cfg p g (m * cfg.N.toNat + n)).2 + 1)⟩
          ⟨Real.sqrt (phillipsSpectrum p (getWaveVector cfg n m) * 0.5), 0⟩) ∧
      (spectrumAux cfg p g (m * cfg.N.toNat + n + 1)).2 =
        (spectrumAux cfg p g (m * cfg.N.toNat + n)).2 + 2) := by
  have hNpos : 0 < cfg.N.toNat := by omega
  have hidx : m * cfg.N.toNat + n < cfg.N.toNat * cfg.N.toNat := by
    have h1 : m * cfg.N.toNat + n < (m + 1) * cfg.N.toNat := by
      rw [Nat.succ_mul]
      omega
    have h2 : (m + 1) * cfg.N.toNat ≤ cfg.N.toNat * cfg.N.toNat := by
      apply Nat.mul_le_mul_right
      omega
    omega
  have hmod : (m * cfg.N.toNat + n) % cfg.N.toNat = n := by
    rw [Nat.mul_comm m cfg.N.toNat, Nat.mul_add_mod, Nat.mod_eq_of_lt hn]
  have hdiv : (m * cfg.N.toNat + n) / cfg.N.toNat = m := by
    rw [Nat.mul_comm m cfg.N.toNat, Nat.mul_add_div hNpos,
      Nat.div_eq_of_lt hn, Nat.add_zero]
  obtain ⟨hlen, hget⟩ := spectrumAux_spec cfg p g (cfg.N.toNat * cfg.N.toNat)
  have hcell := hget (m * cfg.N.toNat + n) hidx
  rw [hmod, hdiv] at hcell
  have hcursor : (spectrumAux cfg p g (m * cfg.N.toNat + n + 1)).2 =
      (spectrumCell cfg p g (spectrumAux cfg p g (m * cfg.N.toNat + n)).2 n m).2 := by
    show (spectrumCell cfg p g (spectrumAux cfg p g (m * cfg.N.toNat + n)).2
      ((m * cfg.N.toNat + n) % cfg.N.toNat)
      ((m * cfg.N.toNat + n) / cfg.N.toNat)).2 = _
    rw [hmod, hdiv]
  refine ⟨hlen, rfl, ?_, ?_⟩
  · intro h
    constructor
    · rw [generateInitialSpectrum, hcell]
      simp only [spectrumCell]
      rw [if_pos h]
    · rw [hcursor]
      simp only [spectrumCell]
      rw [if_pos h]
  · intro h
    constructor
    · rw [generateInitialSpectrum, hcell]
      simp only [spectrumCell]
      rw [if_neg h]
    · rw [hcursor]
      simp only [spectrumCell]
      rw [if_neg h]

/-- Witness for C4: with `N = 2` the cell `(1,1)` has wavevector `(0,0)`,
which is below the cutoff, so it is set to complex zero, and the full
spectrum has `2·2 = 4` cells. -/
theorem generateInitialSpectrum_cells_witness :
    (generateInitialSpectrum (fftConfigN 2) phillipsParamsTest (fun _ => 0)).length = 4 ∧
    (generateInitialSpectrum (fftConfigN 2) phillipsParamsTest (fun _ => 0))[3]? =
      some ⟨0, 0⟩ := by
  have hk : getWaveVector (fftConfigN 2) 1 1 = ⟨0, 0⟩ := by
    simp only [getWaveVector, fftConfigN]
    norm_num
  have hlt : length2 (getWaveVector (fftConfigN 2) 1 1) < 0.000001 := by
    rw [hk]
    have : (0 : ℝ) * 0 + 0 * 0 = 0 := by ring
    simp only [length2, this, Real.sqrt_zero]
    norm_num
  have h := generateInitialSpectrum_cells (fftConfigN 2) phillipsParamsTest
    (fun _ => 0) 1 1 (by decide) (by decide)
  exact ⟨h.1, (h.2.2.1 hlt).1⟩

/-- Length of a `flatMap` over `List.range` whose blocks all have length `c`. -/
theorem length_flatMap_const {β : Type} (f : ℕ → List β) (c : ℕ) :
    ∀ m : ℕ, (∀ z, z < m → (f z).length = c) →
      ((List.range m).flatMap f).length = m * c := by
  intro m
  induction m with
  | zero => intro _; simp
  | succ m ih =>
    intro h
    rw [List.range_succ, List.flatMap_append, List.length_append,
      ih (fun z hz => h z (Nat.lt_succ_of_lt hz))]
    simp only [List.flatMap_cons, List.flatMap_nil, List.append_nil]
    rw [h m (Nat.lt_succ_self m), Nat.succ_mul]

/-- Element lookup in a `flatMap` over `List.range` whose blocks all have
length `c`: position `i` falls in block `i / c` at offset `i % c`. -/
theorem getElem?_flatMap_const {β : Type} (f : ℕ → List β) (c : ℕ)
    (hc : 0 < c) :
    ∀ m i : ℕ, (∀ z, z < m → (f z).length = c) → i < m * c →
      ((List.range m).flatMap f)[i]? = (f (i / c))[i % c]? := by
  intro m
  induction m with
  | zero => intro i _ hi; exact absurd hi (by simp)
  | succ m ih =>
    intro i h hi
    have hlen : ((List.range m).flatMap f).length = m * c :=
      length_flatMap_const f c m (fun z hz => h z (Nat.lt_succ_of_lt hz))
    rw [List.range_succ, List.flatMap_append]
    simp only [List.flatMap_cons, List.flatMap_nil, List.append_nil]
    by_cases hcase : i < m * c
    · rw [List.getElem?_append_left (by rw [hlen]; exact hcase)]
      exact ih i (fun z hz => h z (Nat.lt_succ_of_lt hz)) hcase
    · have hge : m * c ≤ i := Nat.le_of_not_lt hcase
      have hmc : (m + 1) * c = m * c + c := Nat.succ_mul m c
      have hrlt : i - m * c < c := by omega
      have heq : i = c * m + (i - m * c) := by
        rw [Nat.mul_comm]
        omega
      have hdiv : i / c = m := by
        calc i / c = (c * m + (i - m * c)) / c := by rw [← heq]
          _ = m + (i - m * c) / c := by rw [Nat.mul_add_div hc]
          _ = m := by rw [Nat.div_eq_of_lt hrlt, Nat.add_zero]
      have hmod : i % c = i - m * c := by
        calc i % c = (c * m + (i - m * c)) % c := by rw [← heq]
          _ = (i - m * c) % c := by rw [Nat.mul_add_mod]
          _ = i - m * c := Nat.mod_eq_of_lt hrlt
      rw [List.getElem?_append_right (by rw [hlen]; exact hge), hlen, hdiv,
        hmod]

/-- Row-major index arithmetic: `(z*c + x) / c = z` and `(z*c + x) % c = x`
for `x < c`. -/
theorem rowMajor_div_mod (c z x : ℕ) (hx : x < c) :
    (z * c + x) / c = z ∧ (z * c + x) % c = x := by
  have hc : 0 < c := by omega
  constructor
  · rw [Nat.mul_comm z c, Nat.mul_add_div hc, Nat.div_eq_of_lt hx,
      Nat.add_zero]
  · rw [Nat.mul_comm z c, Nat.mul_add_mod, Nat.mod_eq_of_lt hx]

/-- C7: grid mesh generation is a pure function of `(resolution, size)`
(identical inputs give identical vertex/texcoord/index lists); it produces
`(R+1)²` vertices and texcoords and `2R²` triangles (`6R²` indices);
vertices are row-major on the centered square with
`world = -size/2 + index·(size/R)` and `UV = (x/R, z/R)`; and each grid cell
contributes the two triangles `topLeft, bottomLeft, topRight` /
`topRight, bottomLeft, bottomRight`. -/
theorem gridMesh_pure_layout (cfg cfg2 : OceanConfig)
    (hres : 1 ≤ cfg.resolution)
    (he1 : cfg2.resolution = cfg.resolution) (he2 : cfg2.size = cfg.size) :
    (generateMeshVertices cfg2 = generateMeshVertices cfg ∧
     generateMeshTexCoords cfg2 = generateMeshTexCoords cfg ∧
     generateIndices cfg2 = generateIndices cfg) ∧
    ((generateMeshVertices cfg).length =
       (cfg.resolution.toNat + 1) * (cfg.resolution.toNat + 1) ∧
     (generateMeshTexCoords cfg).length =
       (cfg.resolution.toNat + 1) * (cfg.resolution.toNat + 1) ∧
     (generateIndices cfg).length =
       cfg.resolution.toNat * cfg.resolution.toNat * 6) ∧
    (∀ z x : ℕ, z ≤ cfg.resolution.toNat → x ≤ cfg.resolution.toNat →
      (generateMeshVertices cfg)[z * (cfg.resolution.toNat + 1) + x]? =
        some ⟨-(cfg.size * 0.5) + (x : ℝ) * (cfg.size / (cfg.resolution : ℝ)),
              0,
              -(cfg.size * 0.5) + (z : ℝ) * (cfg.size / (cfg.resolution : ℝ))⟩ ∧
      (generateMeshTexCoords cfg)[z * (cfg.resolution.toNat + 1) + x]? =
        some ⟨(x : ℝ) / (cfg.resolution : ℝ), (z : ℝ) / (cfg.resolution : ℝ)⟩) ∧
    (∀ z x : ℕ,
      quadIndices (cfg.resolution.toNat + 1) z x =
        [z * (cfg.resolution.toNat + 1) + x,
         (z + 1) * (cfg.resolution.toNat + 1) + x,
         z * (cfg.resolution.toNat + 1) + x + 1,
         z * (cfg.resolution.toNat + 1) + x + 1,
         (z + 1) * (cfg.resolution.toNat + 1) + x,
         (z + 1) * (cfg.resolution.toNat + 1) + x + 1]) ∧
    (∀ z x j : ℕ, z < cfg.resolution.toNat → x < cfg.resolution.toNat →
      j < 6 →
      (generateIndices cfg)[(z * cfg.resolution.toNat + x) * 6 + j]? =
        (quadIndices (cfg.resolution.toNat + 1) z x)[j]?) := by
  have hr1 : (cfg.resolution + 1).toNat = cfg.resolution.toNat + 1 := by
    omega
  have hRpos : 1 ≤ cfg.resolution.toNat := by omega
  have hrowlen : ∀ w : ℕ, w < cfg.resolution.toNat + 1 →
      (meshVertexRow cfg w).length = cfg.resolution.toNat + 1 := by
    intro w _
    rw [meshVertexRow, List.length_map, List.length_range, hr1]
  have htexlen : ∀ w : ℕ, w < cfg.resolution.toNat + 1 →
      (meshTexRow cfg w).length = cfg.resolution.toNat + 1 := by
    intro w _
    rw [meshTexRow, List.length_map, List.length_range, hr1]
  have hidxlen : ∀ w : ℕ, w < cfg.resolution.toNat →
      (meshIndexRow cfg w).length = cfg.resolution.toNat * 6 := by
    intro w _
    rw [meshIndexRow]
    exact length_flatMap_const
      (fun x => quadIndices (cfg.resolution + 1).toNat w x) 6
      cfg.resolution.toNat (fun v _ => rfl)
  have hpeq : meshVertexAt cfg2 = meshVertexAt cfg := by
    funext z x
    simp only [meshVertexAt, he1, he2]
  have hueq : meshTexCoordAt cfg2 = meshTexCoordAt cfg := by
    funext z x
    simp only [meshTexCoordAt, he1, he2]
  have hveq : meshVertexRow cfg2 = meshVertexRow cfg := by
    funext z
    simp only [meshVertexRow, hpeq, he1]
  have hteq : meshTexRow cfg2 = meshTexRow cfg := by
    funext z
    simp only [meshTexRow, hueq, he1]
  have hieq : meshIndexRow cfg2 = meshIndexRow cfg := by
    funext z
    simp only [meshIndexRow, he1]
  refine ⟨?_, ?_, ?_, ?_, ?_⟩
  · refine ⟨?_, ?_, ?_⟩ <;>
      simp only [generateMeshVertices, generateMeshTexCoords, generateIndices,
        hveq, hteq, hieq, he1, he2]
  · refine ⟨?_, ?_, ?_⟩
    · rw [generateMeshVertices, hr1]
      exact length_flatMap_const (meshVertexRow cfg) (cfg.resolution.toNat + 1)
        (cfg.resolution.toNat + 1) hrowlen
    · rw [generateMeshTexCoords, hr1]
      exact length_flatMap_const (meshTexRow cfg) (cfg.resolution.toNat + 1)
        (cfg.resolution.toNat + 1) htexlen
    · rw [generateIndices,
        length_flatMap_const (meshIndexRow cfg) (cfg.resolution.toNat * 6)
          cfg.resolution.toNat hidxlen,
        Nat.mul_assoc]
  · intro z x hz hx
    have hx1 : x < cfg.resolution.toNat + 1 := by omega
    have hi : z * (cfg.resolution.toNat + 1) + x <
        (cfg.resolution.toNat + 1) * (cfg.resolution.toNat + 1) := by
      have h1 : z * (cfg.resolution.toNat + 1) + x <
          (z + 1) * (cfg.resolution.toNat + 1) := by
        rw [Nat.succ_mul]
        omega
      have h2 : (z + 1) * (cfg.resolution.toNat + 1) ≤
          (cfg.resolution.toNat + 1) * (cfg.resolution.toNat + 1) :=
        Nat.mul_le_mul_right _ (by omega)
      omega
    obtain ⟨hdiv, hmod⟩ := rowMajor_div_mod (cfg.resolution.toNat + 1) z x hx1
    constructor
    · have hv := getElem?_flatMap_const (meshVertexRow cfg)
        (cfg.resolution.toNat + 1) (by omega) (cfg.resolution.toNat + 1)
        (z * (cfg.resolution.toNat + 1) + x) hrowlen hi
      rw [hdiv, hmod] at hv
      rw [generateMeshVertices, hr1, hv, meshVertexRow]
      simp [meshVertexAt, hr1, hx1]
    · have hv := getElem?_flatMap_const (meshTexRow cfg)
        (cfg.resolution.toNat + 1) (by omega) (cfg.resolution.toNat + 1)
        (z * (cfg.resolution.toNat + 1) + x) htexlen hi
      rw [hdiv, hmod] at hv
      rw [generateMeshTexCoords, hr1, hv, meshTexRow]
      simp [meshTexCoordAt, hr1, hx1]
  · intro z x
    rfl
  · intro z x j hz hx hj
    have hinner : x * 6 + j < cfg.resolution.toNat * 6 := by omega
    have hflat : (z * cfg.resolution.toNat + x) * 6 + j =
        z * (cfg.resolution.toNat * 6) + (x * 6 + j) := by ring
    have hi : z * (cfg.resolution.toNat * 6) + (x * 6 + j) <
        cfg.resolution.toNat * (cfg.resolution.toNat * 6) := by
      have h1 : z * (cfg.resolution.toNat * 6) + (x * 6 + j) <
          (z + 1) * (cfg.resolution.toNat * 6) := by
        rw [Nat.succ_mul]
        omega
      have h2 : (z + 1) * (cfg.resolution.toNat * 6) ≤
          cfg.resolution.toNat * (cfg.resolution.toNat * 6) :=
        Nat.mul_le_mul_right _ (by omega)
      omega
    obtain ⟨hdiv1, hmod1⟩ :=
      rowMajor_div_mod (cfg.resolution.toNat * 6) z (x * 6 + j) hinner
    obtain ⟨hdiv2, hmod2⟩ := rowMajor_div_mod 6 x j hj
    have houter := getElem?_flatMap_const (meshIndexRow cfg)
      (cfg.resolution.toNat * 6) (by omega) cfg.resolution.toNat
      (z * (cfg.resolution.toNat * 6) + (x * 6 + j)) hidxlen hi
    rw [hdiv1, hmod1] at houter
    have hinner2 := getElem?_flatMap_const
      (fun x => quadIndices (cfg.resolution + 1).toNat z x) 6 (by omega)
      cfg.resolution.toNat (x * 6 + j) (fun v _ => rfl) hinner
    rw [hdiv2, hmod2] at hinner2
    rw [generateIndices, hflat, houter, meshIndexRow, hinner2, hr1]

/-- The shader's per-iteration wave setup is the same function as the CPU
wave setup (`ocean.vert` repeats the formulas of `Ocean::GenerateWaveSet`
verbatim). -/
theorem shaderGenerateWave_eq : shaderGenerateWave = generateWave := rfl

/-- The shader's `GerstnerWave` is the same function as
`Ocean::CalculateGerstnerWave` (the GLSL repeats the C++ formulas
verbatim). -/
theorem shaderGerstnerWave_eq : shaderGerstnerWave = calculateGerstnerWave :=
  rfl

/-- C1 (amended): for every position, time, and configuration with at most 8
waves, the CPU-path and GPU-path total displacements are exactly equal (in
the real-number model of `float`), hence within any positive tolerance.  The
restriction is forced by the shader's `min(u_numWaves, 8)` loop cap. -/
theorem cpuGpu_displacement_agree (cfg : OceanConfig) (pos : Vec2) (t : ℝ)
    (h : cfg.numWaves ≤ 8) :
    cpuTotalDisplacement cfg pos t = gpuTotalDisplacement cfg pos t := by
  rw [cpuTotalDisplacement, gpuTotalDisplacement, generateWaveSet,
    shaderGenerateWave_eq, shaderGerstnerWave_eq, min_eq_left h,
    List.map_map]
  rfl

/-- Witness for the amended C1: the default configuration has 6 ≤ 8 waves,
so the two paths agree at the origin at time 0. -/
theorem cpuGpu_displacement_agree_witness :
    cpuTotalDisplacement defaultOceanConfig ⟨0, 0⟩ 0 =
      gpuTotalDisplacement defaultOceanConfig ⟨0, 0⟩ 0 :=
  cpuGpu_displacement_agree defaultOceanConfig ⟨0, 0⟩ 0 (by decide)

/-- Witness for C7 at the spec's example `R = 4`, `size = 10`: 25 vertices,
32 triangles (96 indices), and the corner vertex. -/
theorem gridMesh_pure_layout_witness :
    (generateMeshVertices { defaultOceanConfig with resolution := 4, size := 10 }).length = 25 ∧
    (generateIndices { defaultOceanConfig with resolution := 4, size := 10 }).length = 96 ∧
    (generateMeshVertices { defaultOceanConfig with resolution := 4, size := 10 })[0]? =
      some ⟨-((10 : ℝ) * 0.5) + (0 : ℝ) * ((10 : ℝ) / (((4 : ℤ) : ℝ))), 0,
            -((10 : ℝ) * 0.5) + (0 : ℝ) * ((10 : ℝ) / (((4 : ℤ) : ℝ)))⟩ := by
  have h := gridMesh_pure_layout
    { defaultOceanConfig with resolution := 4, size := 10 }
    { defaultOceanConfig with resolution := 4, size := 10 }
    (by norm_num) rfl rfl
  refine ⟨?_, ?_, ?_⟩
  · rw [h.2.1.1]
    rfl
  · rw [h.2.1.2.2]
    rfl
  · have hc := (h.2.2.1 0 0 (by norm_num) (by norm_num)).1
    simpa using hc

/-- The x-component of a single Gerstner displacement at the origin at time
0: the phase reduces to the wave's `phase` field, so the x-displacement is
`q · a · d.x · cos(phase)`. -/
theorem gerstnerWaveX_origin (cfg : OceanConfig) (w : Wave) :
    (calculateGerstnerWave cfg ⟨0, 0⟩ w 0 ⟨1, 0, 0⟩ ⟨0, 0, 1⟩).1.x =
      w.steepness / (w.frequency * w.amplitude * (cfg.numWaves : ℝ)) *
        w.amplitude * (w.direction.x / length2 w.direction) *
        Real.cos w.phase := by
  simp only [calculateGerstnerWave, normalize2, dot2]
  ring_nf

/-- x-component of a `vadd3` fold: the sum of the x-components. -/
theorem foldl_vadd3_x (l : List Vec3) :
    ∀ init : Vec3, (l.foldl vadd3 init).x = init.x + (l.map Vec3.x).sum := by
  induction l with
  | nil => intro init; simp
  | cons a t ih =>
    intro init
    rw [List.foldl_cons, ih, List.map_cons, List.sum_cons, vadd3]
    ring

set_option maxHeartbeats 1000000 in
/-- C1 counterexample: with nine waves (`numWaves = 9` exceeds the shader's
cap of 8), at the origin and time 0, the CPU-path and GPU-path total
displacements differ in x by far more than `1e-4` — the difference is the
entire ninth wave's horizontal displacement, which exceeds 4 world units. -/
theorem cpuGpu_displacement_disagree_nine_waves :
    ¬ |(cpuTotalDisplacement oceanConfigNine ⟨0, 0⟩ 0).x -
        (gpuTotalDisplacement oceanConfigNine ⟨0, 0⟩ 0).x| ≤ 0.0001 := by
  have hπ1 : (3.141592 : ℝ) < Real.pi := Real.pi_gt_d6
  have hπ2 : Real.pi < 3.141593 := Real.pi_lt_d6
  -- bounds on cos/sin of the ninth wave's direction angle 8·0.785398
  have hcosα_eq : Real.cos (6.283184 : ℝ) =
      Real.cos ((6.283184 : ℝ) - 2 * Real.pi) :=
    (Real.cos_sub_two_pi 6.283184).symm
  have hα_lo : -(0.000002 : ℝ) ≤ (6.283184 : ℝ) - 2 * Real.pi := by linarith
  have hα_hi : (6.283184 : ℝ) - 2 * Real.pi ≤ 0.000002 := by linarith
  have hα_sq : ((6.283184 : ℝ) - 2 * Real.pi) ^ 2 ≤ 0.000002 ^ 2 :=
    sq_le_sq' hα_lo hα_hi
  have hcosα_ge : (1 : ℝ) - 0.000000000002 ≤ Real.cos (6.283184 : ℝ) := by
    rw [hcosα_eq]
    have h5 : 1 - ((6.283184 : ℝ) - 2 * Real.pi) ^ 2 / 2 ≤
        Real.cos ((6.283184 : ℝ) - 2 * Real.pi) :=
      Real.one_sub_sq_div_two_le_cos
    nlinarith [hα_sq, h5]
  have hcosα_le : Real.cos (6.283184 : ℝ) ≤ 1 := Real.cos_le_one _
  have hsinα_sq : Real.sin (6.283184 : ℝ) ^ 2 ≤ 0.000000000004 := by
    have hpyth := Real.sin_sq_add_cos_sq (6.283184 : ℝ)
    nlinarith [hcosα_ge, hcosα_le]
  -- bounds on cos of the ninth wave's phase 8·1.57079
  have hcosφ_eq : Real.cos (12.56632 : ℝ) =
      Real.cos ((12.56632 : ℝ) - 2 * Real.pi - 2 * Real.pi) := by
    rw [Real.cos_sub_two_pi, Real.cos_sub_two_pi]
  have hφ_lo : -(0.000052 : ℝ) ≤ (12.56632 : ℝ) - 2 * Real.pi - 2 * Real.pi := by
    linarith
  have hφ_hi : (12.56632 : ℝ) - 2 * Real.pi - 2 * Real.pi ≤ 0.000052 := by
    linarith
  have hφ_sq : ((12.56632 : ℝ) - 2 * Real.pi - 2 * Real.pi) ^ 2 ≤
      0.000052 ^ 2 := sq_le_sq' hφ_lo hφ_hi
  have hcosφ_ge : (0.99 : ℝ) ≤ Real.cos (12.56632 : ℝ) := by
    rw [hcosφ_eq]
    have h5 : 1 - ((12.56632 : ℝ) - 2 * Real.pi - 2 * Real.pi) ^ 2 / 2 ≤
        Real.cos ((12.56632 : ℝ) - 2 * Real.pi - 2 * Real.pi) :=
      Real.one_sub_sq_div_two_le_cos
    nlinarith [hφ_sq, h5]
  -- the ninth wave's fields
  have hdir : (generateWave oceanConfigNine 8).direction =
      ⟨0.3 * Real.cos (6.283184 : ℝ) + 0.7, 0.3 * Real.sin (6.283184 : ℝ)⟩ := by
    simp only [generateWave, oceanConfigNine, defaultOceanConfig, mix2,
      normalize2, length2]
    norm_num
    constructor <;> ring
  have hfreq : (generateWave oceanConfigNine 8).frequency = 0.068 := by
    simp only [generateWave, oceanConfigNine, defaultOceanConfig]
    norm_num
  have hamp : (generateWave oceanConfigNine 8).amplitude = 0.4 := by
    simp only [generateWave, oceanConfigNine, defaultOceanConfig]
    norm_num
  have hphase : (generateWave oceanConfigNine 8).phase = 12.56632 := by
    simp only [generateWave, oceanConfigNine, defaultOceanConfig]
    norm_num
  have hsteep : (generateWave oceanConfigNine 8).steepness =
      0.8 / (0.068 * 0.4 * 9) := by
    simp only [generateWave, oceanConfigNine, defaultOceanConfig]
    norm_num
  have hnum : ((oceanConfigNine.numWaves : ℤ) : ℝ) = 9 := by
    norm_num [oceanConfigNine, defaultOceanConfig]
  -- bounds on the normalized direction's x-component
  have hmx_ge : (0.999999 : ℝ) ≤ 0.3 * Real.cos (6.283184 : ℝ) + 0.7 := by
    linarith
  have hmx_le : (0.3 : ℝ) * Real.cos (6.283184 : ℝ) + 0.7 ≤ 1 := by linarith
  have hlen_le : length2 ⟨0.3 * Real.cos (6.283184 : ℝ) + 0.7,
      0.3 * Real.sin (6.283184 : ℝ)⟩ ≤ 1.000001 := by
    rw [length2]
    have harg : (0.3 * Real.cos (6.283184 : ℝ) + 0.7) *
          (0.3 * Real.cos (6.283184 : ℝ) + 0.7) +
        0.3 * Real.sin (6.283184 : ℝ) * (0.3 * Real.sin (6.283184 : ℝ)) ≤
        1.000001 ^ 2 := by nlinarith [hmx_le, hmx_ge, hsinα_sq]
    calc Real.sqrt ((0.3 * Real.cos (6.283184 : ℝ) + 0.7) *
          (0.3 * Real.cos (6.283184 : ℝ) + 0.7) +
          0.3 * Real.sin (6.283184 : ℝ) * (0.3 * Real.sin (6.283184 : ℝ))) ≤
        Real.sqrt (1.000001 ^ 2) := Real.sqrt_le_sqrt harg
      _ = 1.000001 := Real.sqrt_sq (by norm_num)
  have hlen_pos : 0 < length2 ⟨0.3 * Real.cos (6.283184 : ℝ) + 0.7,
      0.3 * Real.sin (6.283184 : ℝ)⟩ := by
    rw [length2]
    apply Real.sqrt_pos.mpr
    nlinarith [hmx_ge, sq_nonneg (0.3 * Real.sin (6.283184 : ℝ))]
  have hdx_ge : (0.99 : ℝ) ≤
      (0.3 * Real.cos (6.283184 : ℝ) + 0.7) /
        length2 ⟨0.3 * Real.cos (6.283184 : ℝ) + 0.7,
          0.3 * Real.sin (6.283184 : ℝ)⟩ := by
    rw [le_div_iff₀ hlen_pos]
    nlinarith [hlen_le, hmx_ge, hlen_pos]
  -- the ninth wave's x-displacement exceeds 4
  have hX : (4 : ℝ) < (calculateGerstnerWave oceanConfigNine ⟨0, 0⟩
      (generateWave oceanConfigNine 8) 0 ⟨1, 0, 0⟩ ⟨0, 0, 1⟩).1.x := by
    rw [gerstnerWaveX_origin, hsteep, hfreq, hamp, hphase, hnum, hdir]
    have hdx2 : ((⟨0.3 * Real.cos (6.283184 : ℝ) + 0.7,
        0.3 * Real.sin (6.283184 : ℝ)⟩ : Vec2)).x =
        0.3 * Real.cos (6.283184 : ℝ) + 0.7 := rfl
    rw [hdx2]
    nlinarith [hdx_ge, hcosφ_ge, hlen_pos, hlen_le]
  -- the difference of the two totals is exactly the ninth wave's term
  have hsplit : (cpuTotalDisplacement oceanConfigNine ⟨0, 0⟩ 0).x -
      (gpuTotalDisplacement oceanConfigNine ⟨0, 0⟩ 0).x =
      (calculateGerstnerWave oceanConfigNine ⟨0, 0⟩
        (generateWave oceanConfigNine 8) 0 ⟨1, 0, 0⟩ ⟨0, 0, 1⟩).1.x := by
    rw [cpuTotalDisplacement, gpuTotalDisplacement, generateWaveSet,
      shaderGenerateWave_eq, shaderGerstnerWave_eq, List.map_map]
    have h9 : oceanConfigNine.numWaves.toNat = 9 := rfl
    have h8 : (min oceanConfigNine.numWaves 8).toNat = 8 := rfl
    rw [h9, h8, foldl_vadd3_x, foldl_vadd3_x, List.map_map, List.map_map,
      List.sum_range_succ]
    simp only [Function.comp_def]
    ring
  intro habs
  rw [hsplit] at habs
  have hle := le_abs_self ((calculateGerstnerWave oceanConfigNine ⟨0, 0⟩
    (generateWave oceanConfigNine 8) 0 ⟨1, 0, 0⟩ ⟨0, 0, 1⟩).1.x)
  linarith

end AdvGL
